import Mathlib

/-!
Verification of the sensor failure-prediction pipeline (App.tsx).

The repository ships only `src/App.tsx`; the modules it imports
(`utils/csvParser`, `utils/mlPredictor`, `types/sensor`) are absent, so
those data types and functions are modelled from the spec, each marked
with a doc comment starting with the phrase Modelled from the spec.
Everything else is translated directly from `App.tsx`.
-/

namespace Day1

/-- Modelled from the spec: the label of a Prediction is `failure` or
`normal` (type declared in the missing `types/sensor` module; `App.tsx`
compares `p.prediction` against both literals). -/
inductive Label
  | failure
  | normal
deriving DecidableEq

/-- Modelled from the spec: a SensorRecord has an identifier and a set of
named numeric channels, each value a finite number or an explicit missing
marker (type declared in the missing `types/sensor` module). -/
structure SensorData where
  id : Nat
  channels : List (String × Option ℚ)
deriving DecidableEq

/-- Modelled from the spec: a FeatureVector keeps the identifier of its
SensorRecord and maps feature names to numeric values (missing module
`utils/mlPredictor`). -/
structure FeatureVector where
  id : Nat
  features : List (String × ℚ)
deriving DecidableEq

/-- Modelled from the spec: a Prediction carries the identifier, a label
and a confidence score (missing module `types/sensor`). -/
structure Prediction where
  id : Nat
  prediction : Label
  confidence : ℚ
deriving DecidableEq

/-- The AnalysisResults shape, exactly the fields built by `processData`
in `App.tsx` lines 43-50. -/
structure AnalysisResults where
  totalSamples : Nat
  failurePredictions : Nat
  normalPredictions : Nat
  predictions : List Prediction
  processingTime : Nat
deriving DecidableEq

/-- Modelled from the spec: the Feature Preparer derives a FeatureVector
from each record independently; missing channel values are imputed with
the fixed default 0 (zero-imputation policy of section 8). -/
def prepare (r : SensorData) : FeatureVector :=
  { id := r.id, features := r.channels.map (fun c => (c.1, c.2.getD 0)) }

/-- Value of a named feature in a feature vector, 0 when absent. -/
def featVal (fv : FeatureVector) (name : String) : ℚ :=
  (fv.features.lookup name).getD 0

/-- Modelled from the spec: a rule is a threshold predicate over one or
more feature names; all thresholds exceeded yields a failure vote
(missing module `utils/mlPredictor`, spec section 4.3). -/
structure Rule where
  conds : List (String × ℚ)
deriving DecidableEq

/-- One vote of one rule on a feature vector. -/
def Rule.vote (r : Rule) (fv : FeatureVector) : Label :=
  if r.conds.all (fun c => decide (c.2 < featVal fv c.1)) then
    Label.failure
  else
    Label.normal

/-- Modelled from the spec: the Classification Engine takes the majority
vote of the rules, ties broken toward `normal`, confidence the fraction
of rules agreeing with the majority label (missing module
`utils/mlPredictor`, spec section 4.3). -/
def classify (rules : List Rule) (fv : FeatureVector) : Prediction :=
  let votes := rules.map (fun r => r.vote fv)
  let failVotes := (votes.filter (fun v => decide (v = Label.failure))).length
  let normalVotes := (votes.filter (fun v => decide (v = Label.normal))).length
  let label := if normalVotes < failVotes then Label.failure else Label.normal
  let agree := if normalVotes < failVotes then failVotes else normalVotes
  { id := fv.id
    prediction := label
    confidence := (agree : ℚ) / (rules.length : ℚ) }

/-- Modelled from the spec: the fixed decision policy baked into the mock
classifier, taken from the scenario of spec section 8 (temperature above
80 and vibration above 5 gives a failure vote). -/
def defaultRules : List Rule :=
  [{ conds := [("temperature", 80), ("vibration", 5)] }]

/-- Modelled from the spec: `MockRandomForestClassifier.predict` maps each
input record through feature preparation and classification, one
Prediction per record, preserving order (missing module
`utils/mlPredictor`; called from `App.tsx` line 41). -/
def MockRandomForestClassifier.predict (data : List SensorData) : List Prediction :=
  data.map (fun r => classify defaultRules (prepare r))

/-- Error taxonomy of spec section 7. -/
inductive PipelineError
  | formatError
  | emptyInputError
  | configurationError
  | modelUnavailableError
  | busyError
deriving DecidableEq

/-- Pipeline stages of spec section 2. -/
inductive Stage
  | ingestor
  | featurePreparer
  | classificationEngine
  | aggregator
  | orchestrator
deriving DecidableEq

/-- The stage each error class originates from (spec section 7). -/
def errorStage : PipelineError → Stage
  | PipelineError.formatError => Stage.ingestor
  | PipelineError.emptyInputError => Stage.ingestor
  | PipelineError.configurationError => Stage.featurePreparer
  | PipelineError.modelUnavailableError => Stage.classificationEngine
  | PipelineError.busyError => Stage.orchestrator

/-- Raw tabular input: an optional header row naming the channels and the
data rows, each cell either a parsed finite number or a missing marker. -/
structure RawFile where
  header : Option (List String)
  rows : List (List (Option ℚ))
deriving DecidableEq

/-- The channels the header must declare (configuration). -/
def requiredChannels : List String := ["temperature", "vibration"]

/-- Whether the header is present and declares all required channels. -/
def headerValid (h : Option (List String)) : Bool :=
  match h with
  | none => false
  | some cols => requiredChannels.all (fun c => cols.contains c)

/-- Modelled from the spec: `parseCSV` (missing module `utils/csvParser`,
spec section 4.1). Fails with FormatError when the header is absent or
malformed or a row has a different column count than the header; fails
with EmptyInputError when there are zero data rows; otherwise yields one
SensorRecord per row, in row order, with the row index as identifier. -/
def parseCSV (file : RawFile) : Except PipelineError (List SensorData) :=
  match file.header with
  | none => Except.error PipelineError.formatError
  | some cols =>
    if headerValid file.header then
      if file.rows.all (fun r => r.length == cols.length) then
        if file.rows.isEmpty then
          Except.error PipelineError.emptyInputError
        else
          Except.ok (file.rows.enum.map
            (fun p => { id := p.1, channels := cols.zip p.2 }))
      else
        Except.error PipelineError.formatError
    else
      Except.error PipelineError.formatError

/-- The five fixed processing steps of `App.tsx` lines 27-33: each loop
iteration emits one (status string, percentage) progress pair. -/
def steps : List (String × Nat) :=
  [("Validating data format...", 20),
   ("Preprocessing sensor data...", 40),
   ("Loading Random Forest model...", 60),
   ("Running predictions...", 80),
   ("Generating analysis report...", 100)]

/-- The AnalysisResults built by `processData` (`App.tsx` lines 41-50):
counts of each label among the predictions, the prediction list itself
and the elapsed duration, passed in since it is read from the clock. -/
def processData (data : List SensorData) (processingTime : Nat) : AnalysisResults :=
  let predictions := MockRandomForestClassifier.predict data
  { totalSamples := data.length
    failurePredictions :=
      (predictions.filter (fun p => decide (p.prediction = Label.failure))).length
    normalPredictions :=
      (predictions.filter (fun p => decide (p.prediction = Label.normal))).length
    predictions := predictions
    processingTime := processingTime }

/-- Observable events of one `processData` call, in program order. -/
inductive Event
  | progressNote (status : String) (pct : Nat)
  | predictionComputed (p : Prediction)
deriving DecidableEq

/-- Whether an event is a progress emission. -/
def Event.isProgressNote : Event → Bool
  | Event.progressNote _ _ => true
  | Event.predictionComputed _ => false

/-- Event trace of `processData` (`App.tsx` lines 36-41): the loop over
`steps` emits all five progress pairs before `classifier.predict` runs. -/
def processTrace (data : List SensorData) : List Event :=
  steps.map (fun s => Event.progressNote s.1 s.2) ++
    (MockRandomForestClassifier.predict data).map Event.predictionComputed

/-- Terminal state of one run. -/
inductive RunState
  | completed
  | failed (e : PipelineError)
deriving DecidableEq

/-- The observable outcome of one run: the emitted (status, percentage)
pairs, the terminal state, and the AnalysisResults when one exists. -/
structure RunOutcome where
  emitted : List (String × Nat)
  state : RunState
  result : Option AnalysisResults
deriving DecidableEq

/-- One full run as driven by `handleFileSelect` (`App.tsx` lines 56-64):
parse, then process. A parse failure is caught before `processData` is
called, so a failed run emits no progress pairs and yields no results. -/
def runAnalysis (file : RawFile) (processingTime : Nat) : RunOutcome :=
  match parseCSV file with
  | Except.error e => { emitted := [], state := RunState.failed e, result := none }
  | Except.ok data =>
    { emitted := steps
      state := RunState.completed
      result := some (processData data processingTime) }

/-- The three UI states of `App.tsx` line 11. -/
inductive AppState
  | upload
  | processing
  | results
deriving DecidableEq

/-- The component state of `App` (`App.tsx` lines 14-17): the four
useState hooks. -/
structure AppModel where
  state : AppState
  progress : Nat
  status : String
  results : Option AnalysisResults
deriving DecidableEq

/-- The initial values of the four useState hooks. -/
def initialModel : AppModel :=
  { state := AppState.upload, progress := 0, status := "", results := none }

/-- `handleReset` (`App.tsx` lines 71-76): sets state to upload, progress
to 0, status to the empty string and results to null. -/
def handleReset (_m : AppModel) : AppModel :=
  { state := AppState.upload, progress := 0, status := "", results := none }

/-- Component state after `processData` finishes (`App.tsx` lines 20-53):
state becomes results, the last loop iteration left progress at 100 and
status at the last step message, and results holds the new value. -/
def processDataApp (_m : AppModel) (data : List SensorData) (t : Nat) : AppModel :=
  { state := AppState.results
    progress := 100
    status := "Generating analysis report..."
    results := some (processData data t) }

/-- `handleFileSelect` (`App.tsx` lines 56-64) as a state transition: on a
parse failure the catch block surfaces the error and the component state
is untouched; otherwise `processData` runs unconditionally, with no guard
on the current state. -/
def handleFileSelectApp (m : AppModel) (file : RawFile) (t : Nat) :
    AppModel × Option PipelineError :=
  match parseCSV file with
  | Except.error e => (m, some e)
  | Except.ok data => (processDataApp m data t, none)

/-- Whether the FileUpload control is rendered (`App.tsx` line 146: it
appears only when the state is upload). -/
def rendersFileUpload (m : AppModel) : Bool :=
  decide (m.state = AppState.upload)

/-- Every prediction is labelled failure or normal, so the two filtered
counts partition any prediction list. -/
theorem length_filter_label (l : List Prediction) :
    (l.filter (fun p => decide (p.prediction = Label.failure))).length +
      (l.filter (fun p => decide (p.prediction = Label.normal))).length = l.length := by
  induction l with
  | nil => rfl
  | cons p l ih =>
    rcases h : p.prediction <;>
      simp [List.filter_cons, h] <;> omega

/-- Claim C1: for every input data sequence accepted by a run, the
AnalysisResult satisfies failurePredictions + normalPredictions =
totalSamples. -/
theorem processData_counts_sum (data : List SensorData) (t : Nat) :
    (processData data t).failurePredictions + (processData data t).normalPredictions
      = (processData data t).totalSamples := by
  show (List.filter (fun p => decide (p.prediction = Label.failure))
        (MockRandomForestClassifier.predict data)).length +
      (List.filter (fun p => decide (p.prediction = Label.normal))
        (MockRandomForestClassifier.predict data)).length
      = data.length
  rw [length_filter_label]
  simp [MockRandomForestClassifier.predict]

/-- Claim C2: for every input data sequence accepted by a run, the number
of predictions in the AnalysisResult equals totalSamples, one Prediction
per input record. -/
theorem processData_predictions_length (data : List SensorData) (t : Nat) :
    (processData data t).predictions.length = (processData data t).totalSamples := by
  simp [processData, MockRandomForestClassifier.predict]

/-- The classifier keeps the identifier of its input vector. -/
theorem classify_id (rules : List Rule) (fv : FeatureVector) :
    (classify rules fv).id = fv.id := rfl

/-- Feature preparation keeps the identifier of its input record. -/
theorem prepare_id (r : SensorData) : (prepare r).id = r.id := rfl

/-- Claim C3: for every run, the sequence of identifiers of the
predictions in the AnalysisResult equals the sequence of identifiers of
the input records, in input order. -/
theorem processData_ids (data : List SensorData) (t : Nat) :
    (processData data t).predictions.map Prediction.id = data.map SensorData.id := by
  simp [processData, MockRandomForestClassifier.predict, List.map_map,
    Function.comp, classify_id, prepare_id]

/-- Claim C7: classifying the same feature vector twice under the same
rule configuration yields identical label and confidence; classification
is a pure function of the rules and the vector. -/
theorem classify_deterministic (rules : List Rule) (fv1 fv2 : FeatureVector)
    (h : fv1 = fv2) :
    (classify rules fv1).prediction = (classify rules fv2).prediction ∧
      (classify rules fv1).confidence = (classify rules fv2).confidence := by
  subst h
  exact ⟨rfl, rfl⟩

/-- Witness for Claim C7 at a concrete feature vector. -/
theorem classify_deterministic_witness :
    (classify defaultRules (FeatureVector.mk 0 [("temperature", 90), ("vibration", 8)])).prediction
        = (classify defaultRules (FeatureVector.mk 0 [("temperature", 90), ("vibration", 8)])).prediction ∧
      (classify defaultRules (FeatureVector.mk 0 [("temperature", 90), ("vibration", 8)])).confidence
        = (classify defaultRules (FeatureVector.mk 0 [("temperature", 90), ("vibration", 8)])).confidence :=
  classify_deterministic defaultRules
    (FeatureVector.mk 0 [("temperature", 90), ("vibration", 8)])
    (FeatureVector.mk 0 [("temperature", 90), ("vibration", 8)]) rfl

/-- The modelled parser only ever raises FormatError or EmptyInputError. -/
theorem parseCSV_error_cases (file : RawFile) (e : PipelineError)
    (h : parseCSV file = Except.error e) :
    e = PipelineError.formatError ∨ e = PipelineError.emptyInputError := by
  unfold parseCSV at h
  split at h
  · exact Or.inl (by injection h with h2; exact h2.symm)
  · split at h
    · split at h
      · split at h
        · exact Or.inr (by injection h with h2; exact h2.symm)
        · cases h
      · exact Or.inl (by injection h with h2; exact h2.symm)
    · exact Or.inl (by injection h with h2; exact h2.symm)

/-- Claim C4: for every run, the emitted progress percentages are
strictly increasing, and the final emitted percentage equals 100 if and
only if the run reaches the completed state. -/
theorem run_progress_strict_mono (file : RawFile) (t : Nat) :
    List.Chain' (fun a b => a < b) ((runAnalysis file t).emitted.map Prod.snd) ∧
      (((runAnalysis file t).emitted.map Prod.snd).getLast? = some 100 ↔
        (runAnalysis file t).state = RunState.completed) := by
  unfold runAnalysis
  cases hp : parseCSV file with
  | error e => simp
  | ok data =>
    constructor
    · show List.Chain' (fun a b => a < b) (steps.map Prod.snd)
      simp [steps, List.chain'_cons]
    · simp [steps]

/-- Claim C5: when the input contains zero data rows (under a well-formed
header, so that ingestion reaches the row check), the run fails with
EmptyInputError and no AnalysisResult is produced. -/
theorem run_empty_input (file : RawFile) (t : Nat)
    (hh : headerValid file.header = true) (hr : file.rows = []) :
    (runAnalysis file t).state = RunState.failed PipelineError.emptyInputError ∧
      (runAnalysis file t).result = none := by
  have hp : parseCSV file = Except.error PipelineError.emptyInputError := by
    unfold parseCSV
    cases hcase : file.header with
    | none => simp [headerValid, hcase] at hh
    | some cols =>
      rw [hcase] at hh
      simp [hh, hr]
  unfold runAnalysis
  rw [hp]
  exact ⟨rfl, rfl⟩

/-- Witness for Claim C5 at a concrete empty input. -/
theorem run_empty_input_witness :
    (runAnalysis (RawFile.mk (some ["temperature", "vibration"]) []) 0).state
        = RunState.failed PipelineError.emptyInputError ∧
      (runAnalysis (RawFile.mk (some ["temperature", "vibration"]) []) 0).result = none :=
  run_empty_input (RawFile.mk (some ["temperature", "vibration"]) []) 0 (by decide) rfl

/-- Claim C6: if any stage raises an error during a run, the orchestrator
stops processing (zero records are classified), yields no AnalysisResult,
and surfaces the single originating error to the caller, whose class
identifies the originating stage (in this code the Ingestor). -/
theorem run_failed_no_result (file : RawFile) (t : Nat) (e : PipelineError)
    (h : (runAnalysis file t).state = RunState.failed e) :
    (runAnalysis file t).result = none ∧ parseCSV file = Except.error e ∧
      errorStage e = Stage.ingestor := by
  unfold runAnalysis at h ⊢
  cases hp : parseCSV file with
  | error e2 =>
    rw [hp] at h
    have he : e2 = e := by simpa using h
    subst he
    refine ⟨rfl, rfl, ?_⟩
    rcases parseCSV_error_cases file e2 hp with h1 | h1 <;> rw [h1] <;> rfl
  | ok data =>
    rw [hp] at h
    exact RunState.noConfusion h

/-- Witness for Claim C6 at a concrete headerless input. -/
theorem run_failed_no_result_witness :
    (runAnalysis (RawFile.mk none []) 0).result = none ∧
      parseCSV (RawFile.mk none []) = Except.error PipelineError.formatError ∧
      errorStage PipelineError.formatError = Stage.ingestor :=
  run_failed_no_result (RawFile.mk none []) 0 PipelineError.formatError rfl

/-- Concrete component state as it stands mid-run, while processing. -/
def busyModel : AppModel :=
  { state := AppState.processing, progress := 40,
    status := "Preprocessing sensor data...", results := none }

/-- Concrete well-formed one-row input file. -/
def demoFile : RawFile :=
  { header := some ["temperature", "vibration"], rows := [[some 90, some 8]] }

/-- Counterexample for Claim C8: a second analysis request made while the
component is in the processing state is not rejected with BusyError; the
code has no such guard and the request runs to the results state. -/
theorem second_request_not_busy :
    (handleFileSelectApp busyModel demoFile 0).2 ≠ some PipelineError.busyError ∧
      (handleFileSelectApp busyModel demoFile 0).1.state = AppState.results := by
  decide

/-- Claim C8 amended: while a run is processing, the FileUpload control is
not rendered, so no second analysis request can be initiated through the
UI; a direct second invocation is not rejected with BusyError (the code
defines no BusyError) but simply runs. -/
theorem processing_hides_upload (m : AppModel) (file : RawFile) (t : Nat)
    (h : m.state = AppState.processing) :
    rendersFileUpload m = false ∧
      (handleFileSelectApp m file t).2 ≠ some PipelineError.busyError := by
  constructor
  · simp [rendersFileUpload, h]
  · cases hp : parseCSV file with
    | error e =>
      have hne : e ≠ PipelineError.busyError := by
        rcases parseCSV_error_cases file e hp with h1 | h1 <;> simp [h1]
      simp [handleFileSelectApp, hp, hne]
    | ok data => simp [handleFileSelectApp, hp]

/-- Witness for the amended Claim C8 at a concrete processing state. -/
theorem processing_hides_upload_witness :
    rendersFileUpload busyModel = false ∧
      (handleFileSelectApp busyModel demoFile 0).2 ≠ some PipelineError.busyError :=
  processing_hides_upload busyModel demoFile 0 rfl

/-- Claim C9: for every input data sequence, including the empty one,
processData emits exactly the five progress pairs with percentages 20,
40, 60, 80, 100 and their fixed status strings, in that order, all before
any prediction is computed; the emitted sequence does not depend on the
input data. -/
theorem processTrace_fixed_notes (data : List SensorData) :
    ∃ rest,
      processTrace data =
        [Event.progressNote "Validating data format..." 20,
         Event.progressNote "Preprocessing sensor data..." 40,
         Event.progressNote "Loading Random Forest model..." 60,
         Event.progressNote "Running predictions..." 80,
         Event.progressNote "Generating analysis report..." 100] ++ rest ∧
      (∀ e ∈ rest, e.isProgressNote = false) ∧
      rest.length = data.length := by
  refine ⟨(MockRandomForestClassifier.predict data).map Event.predictionComputed,
    rfl, ?_, ?_⟩
  · intro e he
    rcases List.mem_map.mp he with ⟨p, _, rfl⟩
    rfl
  · simp [MockRandomForestClassifier.predict]

/-- Claim C10: handleReset restores the application to its initial state,
state upload, progress 0, status empty, results null, discarding the
previous AnalysisResult entirely. -/
theorem handleReset_restores_initial (m : AppModel) :
    handleReset m = initialModel := rfl

end Day1
